import Mathlib

/-!
Shallow embedding of the easybioclim Streamlit application (src/app.py).

The app turns uploaded GeoJSON point geometries plus a comma-separated label
string into a table of bioclimatic values fetched from Earth Engine, and
serves that table as a semicolon-delimited CSV.  We embed the pure logic:
file-upload validation, the geometry loader (with its temporary-file
lifecycle modelled as an explicit operation trace), label parsing, the
result assembler (column retention, concatenation, relabelling, transpose)
and the CSV export encoder.  External services (geopandas parsing, Earth
Engine) are modelled as parameters carrying their possible outcomes.
-/

namespace EasyBioclim

/-- Characters that Python's `str.strip()` removes (the model keeps the
ASCII whitespace set actually used by the app's inputs). -/
def pyIsSpace (c : Char) : Bool :=
  c == ' ' || c == '\t' || c == '\n' || c == '\r' || c == '\x0b' || c == '\x0c'

/-- `str.strip()` on a character list: drop whitespace from both ends. -/
def stripChars (cs : List Char) : List Char :=
  ((cs.dropWhile pyIsSpace).reverse.dropWhile pyIsSpace).reverse

/-- Split a character list on a separator character, keeping empty pieces,
like Python's `str.split(sep)` for a one-character separator. -/
def splitOnChar (sep : Char) : List Char → List (List Char)
  | [] => [[]]
  | c :: rest =>
    let r := splitOnChar sep rest
    if c == sep then [] :: r
    else
      match r with
      | [] => [[c]]
      | h :: t => (c :: h) :: t

/-- Boolean list-prefix test. -/
def isPrefixB : List Char → List Char → Bool
  | [], _ => true
  | _ :: _, [] => false
  | a :: as, b :: bs => a == b && isPrefixB as bs

/-- Boolean substring (contiguous sublist) test: Python's `pat in text`. -/
def isInfixB : List Char → List Char → Bool
  | pat, [] => isPrefixB pat []
  | pat, c :: rest => isPrefixB pat (c :: rest) || isInfixB pat rest

/-- `pat in s` for strings (Python substring containment). -/
def containsSubstr (s pat : String) : Bool :=
  isInfixB pat.toList s.toList

/-- `str.lower()` restricted to the per-character lowering the app relies
on (ASCII column names and file extensions). -/
def lowerStr (s : String) : String :=
  String.mk (s.toList.map Char.toLower)

/-- Index of the last `.` in a character list, if any (Python `str.rfind('.')`). -/
def lastDotAux : List Char → Nat → Option Nat → Option Nat
  | [], _, acc => acc
  | c :: rest, i, acc => lastDotAux rest (i + 1) (if c == '.' then some i else acc)

/-- Final path component of a name (`pathlib.PurePath.name` for the
relative names produced by browser uploads). -/
def pathBase (name : String) : String :=
  String.mk ((splitOnChar '/' name.toList).getLastD [])

/-- `pathlib.PurePath.suffix`: the extension of the final component,
from the last dot, empty when the dot is leading, trailing or absent. -/
def pathSuffix (name : String) : String :=
  let cs := (pathBase name).toList
  match lastDotAux cs 0 none with
  | none => ""
  | some i => if 0 < i && i + 1 < cs.length then String.mk (cs.drop i) else ""

/-- `Path(name).suffix.lower()` as computed at app.py:38 and app.py:165. -/
def fileExtension (name : String) : String :=
  lowerStr (pathSuffix name)

/-! ## Configuration constants (app.py:23-26) -/

def MAX_FILE_SIZE : Nat := 10 * 1024 * 1024

def ALLOWED_EXTENSIONS : List String := [".geojson"]

def MAX_AREAS : Nat := 50

def MAX_AREA_NAME_LENGTH : Nat := 100

/-- An uploaded file as seen by the validator: its declared name and size.
`Option Upload` models Streamlit handing over `None` or a file object. -/
structure Upload where
  name : String
  size : Nat
deriving DecidableEq

/-- Substring patterns rejected in file names (app.py:43). -/
def dangerousNamePatterns : List String :=
  ["..", "/", "\\", "<", ">", "|", "*", "?"]

/-- `validate_file_upload` (app.py:28-46): returns `(ok, message)`. -/
def validate_file_upload : Option Upload → Bool × String
  | none => (false, "Nenhum arquivo enviado")
  | some u =>
    if u.size > MAX_FILE_SIZE then
      (false, "Arquivo muito grande. Máximo: 10MB")
    else if !(ALLOWED_EXTENSIONS.contains (fileExtension u.name)) then
      (false, "Extensão não permitida. Permitido: \x7b.geojson\x7d")
    else if dangerousNamePatterns.any (fun p => containsSubstr u.name p) then
      (false, "Nome do arquivo contém caracteres não permitidos")
    else
      (true, "Arquivo válido")

/-- Label parsing (app.py:341): split the free-text field on commas,
strip each piece, drop pieces that are empty after stripping. -/
def parseAreas (s : String) : List String :=
  (((splitOnChar ',' s.toList).map (fun cs => String.mk (stripChars cs))).filter
    (fun a => a ≠ ""))

/-! ## Geometry loader (app.py:155-208) -/

/-- A geometry parsed from the uploaded file.  Points carry the latitude
(`geometry.y`) and longitude (`geometry.x`) that the pipeline extracts;
lines and polygons are the non-point shapes the drawing tool can export. -/
inductive Geom where
  | point (lat lon : Rat)
  | line
  | polygon
deriving DecidableEq

/-- Whether a geometry is a point marker. -/
def Geom.isPoint : Geom → Bool
  | .point _ _ => true
  | _ => false

/-- File-system and driver operations performed by `uploaded_file_to_gdf`,
recorded as an explicit trace. -/
inductive FOp where
  | create (name : String)
  | remove (name : String)
  | useKmlDriver
deriving DecidableEq

/-- Errors raised by `uploaded_file_to_gdf`; each constructor is one raise
site, carrying the data interpolated into its message. -/
inductive LoadError where
  | invalidFile (msg : String)
  | unsafePath
  | parseError (msg : String)
  | emptyFile
  | tooMany (n : Nat)
deriving DecidableEq

/-- `uploaded_file_to_gdf` (app.py:155-208).  `tmpId` stands for the fresh
UUID chosen at app.py:166; `pathSafe` is the resolved-path containment test
of app.py:171-174 (always true for a UUID name, kept as an input);
`parseKml` / `parseGeo` are the outcomes `gpd.read_file` would give with and
without the KML driver.  The returned trace records temporary-file creation
and removal: the `finally` block of app.py:198-204 removes the file on every
path after creation (the model takes `os.remove` to succeed). -/
def uploaded_file_to_gdf (u : Option Upload) (tmpId : String) (pathSafe : Bool)
    (parseKml parseGeo : Except String (List Geom)) :
    Except LoadError (List Geom) × List FOp :=
  let v := validate_file_upload u
  if v.1 = false then
    (.error (.invalidFile v.2), [])
  else
    match u with
    | none => (.error (.invalidFile "Nenhum arquivo enviado"), [])
    | some f =>
      let ext := fileExtension f.name
      let fname := tmpId ++ ext
      if pathSafe = false then
        (.error .unsafePath, [])
      else
        let kmlOps : List FOp := if ext == ".kml" then [.useKmlDriver] else []
        let parsed := if ext == ".kml" then parseKml else parseGeo
        let res : Except LoadError (List Geom) :=
          match parsed with
          | .error e => .error (.parseError e)
          | .ok gdf =>
            if gdf.isEmpty then .error .emptyFile
            else if gdf.length > MAX_AREAS then .error (.tooMany gdf.length)
            else .ok gdf
        (res, .create fname :: kmlOps ++ [.remove fname])

/-! ## Tables

A `DF α` models a pandas DataFrame as used by the app: named columns, a
row-label index, and row-major data.  Well-formedness says the data is
rectangular and matches the index. -/

structure DF (α : Type) where
  cols : List String
  index : List String
  data : List (List α)
deriving DecidableEq

/-- Rectangularity invariant every DataFrame the app builds satisfies. -/
def DF.WF {α : Type} (d : DF α) : Prop :=
  d.data.length = d.index.length ∧ ∀ r ∈ d.data, r.length = d.cols.length

instance {α : Type} (d : DF α) : Decidable (DF.WF d) := by
  unfold DF.WF; infer_instance

/-- `DataFrame.T` (app.py:424): columns become the index, the index becomes
the columns, and the data grid is mirrored along the diagonal. -/
def transpose {α : Type} [Inhabited α] (d : DF α) : DF α :=
  { cols := d.index
    index := d.cols
    data := (List.range d.cols.length).map (fun k => d.data.map (fun r => r.getD k default)) }

/-- The `j`-th data column of a table (the values under its `j`-th column
label). -/
def DF.col {α : Type} [Inhabited α] (d : DF α) (j : Nat) : List α :=
  d.data.map (fun r => r.getD j default)

/-! ## Result assembler (app.py:401-426) -/

/-- `df_extracted` (app.py:401): the attribute table built from the fetched
feature properties.  Each column is a name paired with its pandas-dtype
numericity flag (`select_dtypes(include=[float, int])` keeps the flagged
ones); rows hold the per-point values in point order. -/
structure AttrTable where
  cols : List (String × Bool)
  rows : List (List Rat)
deriving DecidableEq

/-- `'bio' in col.lower()` (app.py:404). -/
def hasBio (name : String) : Bool :=
  containsSubstr (lowerStr name) "bio"

/-- The columns whose name matches the bio naming convention (app.py:404). -/
def bio_columns (t : AttrTable) : List (String × Bool) :=
  t.cols.filter (fun c => hasBio c.1)

/-- The column predicate actually used after the fallback of app.py:406-407:
bio-named columns when any exist, otherwise numeric-dtype columns. -/
def keepPred (t : AttrTable) : String × Bool → Bool :=
  if bio_columns t = [] then (fun c => c.2) else (fun c => hasBio c.1)

/-- The retained variable columns (`bio_columns` after the fallback). -/
def retainedCols (t : AttrTable) : List (String × Bool) :=
  t.cols.filter (keepPred t)

/-- `df_extracted[bio_columns]` applied to one row: the values of the
retained columns, in column order. -/
def selectRow (t : AttrTable) (row : List Rat) : List Rat :=
  (((t.cols.zip row).filter (fun p => keepPred t p.1)).map (fun p => p.2))

/-- Errors raised inside the assembly block; each constructor is one raise
site with the data interpolated into its message (app.py:410 and 426). -/
inductive AsmError where
  | noVariables
  | rowMismatch (nCoords nExtracted : Nat)
deriving DecidableEq

/-- The user-facing message of an assembly error. -/
def AsmError.render : AsmError → String
  | .noVariables => "Nenhuma variável bioclimática encontrada"
  | .rowMismatch a b =>
    "Incompatibilidade de dados: " ++ toString a ++ " vs " ++ toString b

/-- `df_final` before the transpose (app.py:419-423): `coords_data`
concatenated with the retained attribute columns, re-indexed by the labels. -/
def mergedDF (pts : List (Rat × Rat)) (labels : List String) (t : AttrTable) : DF Rat :=
  { cols := "latitude" :: "longitude" :: (retainedCols t).map (fun c => c.1)
    index := labels
    data := (pts.zip t.rows).map (fun pr => pr.1.1 :: pr.1.2 :: selectRow t pr.2) }

/-- The Result Assembler (app.py:404-424): retain variable columns (with the
numeric fallback), build `coords_data` from the point coordinates, check the
row counts, concatenate latitude, longitude and the retained columns,
re-index the rows by the labels and transpose. -/
def assemble (pts : List (Rat × Rat)) (labels : List String) (t : AttrTable) :
    Except AsmError (DF Rat) :=
  if retainedCols t = [] then .error .noVariables
  else if pts.length = t.rows.length then
    .ok (transpose (mergedDF pts labels t))
  else .error (.rowMismatch pts.length t.rows.length)

/-! ## Main processing block (app.py:350-431) -/

/-- Calls made to the Earth Engine service boundary (app.py:366 and 378). -/
inductive PEvent where
  | eeConvert
  | sampleRegionsCall
deriving DecidableEq

/-- Errors surfaced by the main processing block. -/
inductive PipeError where
  | shapeMismatch (nNames nGeoms : Nat)
  | coordError (msg : String)
  | remoteError (msg : String)
  | extraction (e : AsmError)
deriving DecidableEq

/-- The user-facing message of a pipeline error (app.py:357 and the raise
sites it wraps). -/
def PipeError.render : PipeError → String
  | .shapeMismatch a b =>
    "❌ Incompatibilidade: " ++ toString a ++ " nomes ≠ " ++ toString b ++ " geometrias"
  | .coordError m => m
  | .remoteError m => m
  | .extraction e => e.render

/-- `gdf.geometry.y` / `gdf.geometry.x` (app.py:360): extracting the
coordinate pair of every geometry, failing on non-point shapes the way
geopandas raises for them. -/
def extractCoords : List Geom → Except String (List (Rat × Rat))
  | [] => .ok []
  | .point la lo :: rest => (extractCoords rest).map (fun ps => (la, lo) :: ps)
  | _ :: _ => .error "geometry does not contain points"

/-- The main processing block (app.py:356-424) after a successful load:
check the label/geometry counts, build `pontos_df`, convert to Earth Engine
and sample the raster (modelled as the `fetch` outcome, its table being
`df_extracted`), then assemble.  The event list records which remote calls
were reached. -/
def pipelineMain (gdf : List Geom) (labels : List String)
    (fetch : Except String AttrTable) :
    Except PipeError (DF Rat) × List PEvent :=
  if gdf.length ≠ labels.length then
    (.error (.shapeMismatch labels.length gdf.length), [])
  else
    match extractCoords gdf with
    | .error e => (.error (.coordError e), [])
    | .ok pts =>
      match fetch with
      | .error m => (.error (.remoteError m), [.eeConvert, .sampleRegionsCall])
      | .ok t =>
        ((assemble pts labels t).mapError .extraction, [.eeConvert, .sampleRegionsCall])

/-! ## Export encoder (app.py:463-470) -/

/-- Digits of the fractional part of a rational, as printed after the
decimal separator (fuel-bounded decimal expansion). -/
def fracDigitsAux : Nat → Rat → String
  | 0, _ => ""
  | fuel + 1, r =>
    if r = 0 then ""
    else
      let r10 := r * 10
      let d : Int := r10.floor
      toString d ++ fracDigitsAux fuel (r10 - (d : Rat))

/-- One cell as printed by `to_csv(..., decimal=",")`: the number's digits
with a comma as the decimal separator. -/
def csvCell (q : Rat) : String :=
  let sign := if q < 0 then "-" else ""
  let a := if q < 0 then -q else q
  let ip : Int := a.floor
  let fp := a - (ip : Rat)
  if fp = 0 then sign ++ toString ip
  else sign ++ toString ip ++ "," ++ fracDigitsAux 30 fp

/-- `df.to_csv(sep=";", decimal=",")` (app.py:465): a header line with an
empty cell for the index followed by the column names, then one line per
row starting with its index label, all fields semicolon-separated. -/
def toCsv (d : DF Rat) : String :=
  let header := String.intercalate ";" ("" :: d.cols)
  let body := (d.index.zip d.data).map
    (fun p => String.intercalate ";" (p.1 :: p.2.map csvCell))
  String.intercalate "\n" (header :: body) ++ "\n"

/-- `convert_df` (app.py:463-465): serialize and UTF-8 encode. -/
def convert_df (d : DF Rat) : List UInt8 :=
  (toCsv d).toUTF8.toList

/-- The timestamped download file name (app.py:470); `now` stands for
`pd.Timestamp.now().strftime(...)`. -/
def safe_download_name (now : String) : String :=
  "bioclim_data_" ++ now ++ ".csv"

/-- The download step (app.py:463-479): the suggested file name and the
encoded bytes, with the clock reading `now` available to both. -/
def exportStep (d : DF Rat) (now : String) : String × List UInt8 :=
  (safe_download_name now, convert_df d)

/-! ## Helper lemmas -/

theorem range_map_getD {α : Type} (l : List α) (d : α) :
    (List.range l.length).map (fun k => l.getD k d) = l := by
  induction l with
  | nil => rfl
  | cons a as ih =>
    rw [List.length_cons, List.range_succ_eq_map, List.map_cons, List.map_map]
    simp only [Function.comp_def, List.getD_cons_succ, List.getD_cons_zero]
    rw [ih]

theorem getD_map_of_lt {α β : Type} (l : List α) (f : α → β) (j : Nat)
    (h : j < l.length) (d : β) (d' : α) :
    (l.map f).getD j d = f (l.getD j d') := by
  rw [List.getD_eq_getElem _ _ (by simpa using h), List.getElem_map,
    List.getD_eq_getElem _ _ h]

/-- A column of the transposed table is the corresponding row of the
original table. -/
theorem col_transpose {α : Type} [Inhabited α] (d : DF α) (j : Nat)
    (hj : j < d.data.length) (hrow : (d.data.getD j []).length = d.cols.length) :
    (transpose d).col j = d.data.getD j [] := by
  unfold transpose DF.col
  simp only [List.map_map, Function.comp_def]
  have h1 : ((List.range d.cols.length).map
      (fun k => (d.data.map (fun r => r.getD k default)).getD j default))
      = (List.range d.cols.length).map (fun k => (d.data.getD j []).getD k default) := by
    apply List.map_congr_left
    intro k _
    rw [getD_map_of_lt d.data _ j hj default []]
  rw [h1, ← hrow, range_map_getD]

theorem transpose_wf {α : Type} [Inhabited α] (d : DF α)
    (h : d.data.length = d.index.length) : (transpose d).WF := by
  constructor
  · simp [transpose]
  · intro r hr
    simp only [transpose, List.mem_map] at hr
    obtain ⟨k, _, hk⟩ := hr
    simp [transpose, ← hk, h]

/-- Transposing twice restores a well-formed table. -/
theorem transpose_transpose {α : Type} [Inhabited α] (d : DF α) (h : d.WF) :
    transpose (transpose d) = d := by
  obtain ⟨h1, h2⟩ := h
  have hdata : (transpose (transpose d)).data = d.data := by
    show (List.range (transpose d).cols.length).map
        (fun j => (transpose d).data.map (fun r => r.getD j default)) = d.data
    have hc : (transpose d).cols.length = d.data.length := by
      simp [transpose, h1]
    rw [hc]
    have hcong : ∀ j ∈ List.range d.data.length,
        (transpose d).data.map (fun r => r.getD j default) = d.data.getD j [] := by
      intro j hj
      have hj' : j < d.data.length := List.mem_range.mp hj
      exact col_transpose d j hj' (by
        rw [List.getD_eq_getElem _ _ hj']
        exact h2 _ (List.getElem_mem hj'))
    rw [List.map_congr_left hcong, range_map_getD]
  cases d with
  | mk cols index data => exact congrArg (DF.mk cols index) hdata

theorem filter_zip_map_length {α β : Type} (P : α → Bool) (l1 : List α) :
    ∀ l2 : List β, l1.length = l2.length →
      (((l1.zip l2).filter (fun p => P p.1)).map (fun p => p.2)).length
        = (l1.filter P).length := by
  induction l1 with
  | nil => intro l2 h; rfl
  | cons a as ih =>
    intro l2 h
    cases l2 with
    | nil => simp at h
    | cons b bs =>
      have h' : as.length = bs.length := by simpa using h
      simp only [List.zip_cons_cons, List.filter_cons]
      cases hp : P a <;> simp [hp, ih bs h']

theorem selectRow_length (t : AttrTable) (row : List Rat)
    (h : row.length = t.cols.length) :
    (selectRow t row).length = (retainedCols t).length := by
  unfold selectRow retainedCols
  exact filter_zip_map_length _ t.cols row h.symm

/-- The ok branch of `assemble`. -/
theorem assemble_ok_eq (pts : List (Rat × Rat)) (labels : List String) (t : AttrTable)
    (hR : pts.length = t.rows.length) (hK : retainedCols t ≠ []) :
    assemble pts labels t = .ok (transpose (mergedDF pts labels t)) := by
  simp [assemble, hK, hR]

theorem mergedDF_data_length (pts : List (Rat × Rat)) (labels : List String)
    (t : AttrTable) (hR : t.rows.length = pts.length) :
    (mergedDF pts labels t).data.length = pts.length := by
  simp [mergedDF, hR]

theorem mergedDF_row (pts : List (Rat × Rat)) (labels : List String) (t : AttrTable)
    (hR : t.rows.length = pts.length) (j : Nat) (hj : j < pts.length) :
    (mergedDF pts labels t).data.getD j []
      = (pts.getD j (0, 0)).1 :: (pts.getD j (0, 0)).2 :: selectRow t (t.rows.getD j []) := by
  have hjz : j < (pts.zip t.rows).length := by
    simp [List.length_zip, hR]
    omega
  have hjm : j < ((pts.zip t.rows).map
      (fun pr => pr.1.1 :: pr.1.2 :: selectRow t pr.2)).length := by
    simpa using hjz
  show ((pts.zip t.rows).map (fun pr => pr.1.1 :: pr.1.2 :: selectRow t pr.2)).getD j []
    = _
  rw [List.getD_eq_getElem _ _ hjm, List.getElem_map, List.getElem_zip,
    List.getD_eq_getElem _ _ hj, List.getD_eq_getElem _ _ (by omega : j < t.rows.length)]

theorem mergedDF_wf (pts : List (Rat × Rat)) (labels : List String) (t : AttrTable)
    (hL : labels.length = pts.length) (hR : t.rows.length = pts.length)
    (hW : ∀ r ∈ t.rows, r.length = t.cols.length) :
    (mergedDF pts labels t).WF := by
  constructor
  · simp [mergedDF, hR, hL]
  · intro r hr
    simp only [mergedDF, List.mem_map] at hr
    obtain ⟨pr, hpr, hkr⟩ := hr
    have h2 : pr.2 ∈ t.rows := (List.of_mem_zip hpr).2
    simp [mergedDF, ← hkr, selectRow_length t pr.2 (hW pr.2 h2)]

/-- A validated upload exists and its computed extension is `.geojson`,
since the allow-list (app.py:24) holds only that entry. -/
theorem validate_true_ext {u : Option Upload}
    (h : (validate_file_upload u).1 = true) :
    ∃ v, u = some v ∧ fileExtension v.name = ".geojson" := by
  match u with
  | none => simp [validate_file_upload] at h
  | some v =>
    refine ⟨v, rfl, ?_⟩
    simp only [validate_file_upload] at h
    split at h
    · simp at h
    · split at h
      · simp at h
      · next h2 =>
        have hc : ALLOWED_EXTENSIONS.contains (fileExtension v.name) = true := by
          revert h2
          cases ALLOWED_EXTENSIONS.contains (fileExtension v.name) <;> simp
        have hm : fileExtension v.name ∈ ALLOWED_EXTENSIONS := by
          simpa using hc
        simpa [ALLOWED_EXTENSIONS] using hm

/-! ## Claim theorems -/

/-- Claim C1: with matching point, label and attribute-row counts and a
nonempty set of retained variable columns, the Result Assembler succeeds and
the resulting table has one column per label in label order, rows
latitude, longitude and then each retained variable, and the values of the
j-th column are the j-th point's latitude and longitude followed by the
retained values of the j-th attribute row. -/
theorem assemble_builds_labeled_transposed_table
    (pts : List (Rat × Rat)) (labels : List String) (t : AttrTable)
    (hL : labels.length = pts.length) (hR : t.rows.length = pts.length)
    (hK : retainedCols t ≠ []) (hW : ∀ r ∈ t.rows, r.length = t.cols.length) :
    ∃ T, assemble pts labels t = .ok T ∧
      T.cols = labels ∧
      T.index = "latitude" :: "longitude" :: (retainedCols t).map (fun c => c.1) ∧
      T.data.length = 2 + (retainedCols t).length ∧
      (∀ r ∈ T.data, r.length = labels.length) ∧
      (∀ j, j < pts.length →
        T.col j = (pts.getD j (0, 0)).1 :: (pts.getD j (0, 0)).2
          :: selectRow t (t.rows.getD j [])) := by
  refine ⟨transpose (mergedDF pts labels t), assemble_ok_eq pts labels t hR.symm hK,
    rfl, rfl, ?_, ?_, ?_⟩
  · simp only [transpose, mergedDF, List.length_map, List.length_range,
      List.length_cons]
    omega
  · intro r hr
    have hwf := mergedDF_wf pts labels t hL hR hW
    have := (transpose_wf (mergedDF pts labels t) hwf.1).2 r hr
    simpa [transpose, mergedDF, hL] using this
  · intro j hj
    rw [col_transpose (mergedDF pts labels t) j
      (by rw [mergedDF_data_length pts labels t hR]; exact hj)
      ?hrow, mergedDF_row pts labels t hR j hj]
    case hrow =>
      rw [mergedDF_row pts labels t hR j hj]
      have hjr : j < t.rows.length := by omega
      have hmem : (t.rows[j]?).getD [] ∈ t.rows := by
        rw [List.getElem?_eq_getElem hjr]
        exact List.getElem_mem hjr
      have hsel : (selectRow t ((t.rows[j]?).getD [])).length
          = (retainedCols t).length := selectRow_length t _ (hW _ hmem)
      simp [mergedDF, List.getD, hsel]

/-- Witness for C1 at the three-point scenario of the spec: labels P1 P2 P3,
coordinates (-27.80, -50.10), (-27.85, -50.20), (-27.90, -50.30), fetched
values BIO1 = 180 and BIO12 = 1500 for each point. -/
theorem assemble_builds_labeled_transposed_table_witness :
    ∃ T, assemble [(-27.80, -50.10), (-27.85, -50.20), (-27.90, -50.30)]
        ["P1", "P2", "P3"]
        ⟨[("BIO1", true), ("BIO12", true)], [[180, 1500], [180, 1500], [180, 1500]]⟩
      = .ok T ∧
      T.cols = ["P1", "P2", "P3"] ∧
      T.index = "latitude" :: "longitude"
        :: (retainedCols ⟨[("BIO1", true), ("BIO12", true)],
              [[180, 1500], [180, 1500], [180, 1500]]⟩).map (fun c => c.1) ∧
      T.data.length = 2 + (retainedCols ⟨[("BIO1", true), ("BIO12", true)],
              [[180, 1500], [180, 1500], [180, 1500]]⟩).length ∧
      (∀ r ∈ T.data, r.length = (["P1", "P2", "P3"] : List String).length) ∧
      (∀ j, j < ([(-27.80, -50.10), (-27.85, -50.20), (-27.90, -50.30)]
          : List (Rat × Rat)).length →
        T.col j = (([(-27.80, -50.10), (-27.85, -50.20), (-27.90, -50.30)]
            : List (Rat × Rat)).getD j (0, 0)).1
          :: (([(-27.80, -50.10), (-27.85, -50.20), (-27.90, -50.30)]
            : List (Rat × Rat)).getD j (0, 0)).2
          :: selectRow ⟨[("BIO1", true), ("BIO12", true)],
              [[180, 1500], [180, 1500], [180, 1500]]⟩
            (((⟨[("BIO1", true), ("BIO12", true)],
              [[180, 1500], [180, 1500], [180, 1500]]⟩ : AttrTable)).rows.getD j [])) :=
  assemble_builds_labeled_transposed_table _ _ _ (by decide) (by decide)
    (by decide) (by decide)

/-- Claim C2: when the geometry count and the label count differ, the main
block reports the shape mismatch carrying both counts, reaches no Earth
Engine call, and its outcome does not depend on the remote service at all. -/
theorem pipeline_shape_mismatch_no_fetch (gdf : List Geom) (labels : List String)
    (fetch fetch2 : Except String AttrTable) (h : gdf.length ≠ labels.length) :
    pipelineMain gdf labels fetch
      = (.error (.shapeMismatch labels.length gdf.length), [])
    ∧ pipelineMain gdf labels fetch = pipelineMain gdf labels fetch2 := by
  constructor <;> simp [pipelineMain, h]

/-- Witness for C2: two geometries and three labels give the 3 vs 2 mismatch
with no remote events, whatever the remote service would have answered. -/
theorem pipeline_shape_mismatch_no_fetch_witness :
    pipelineMain [Geom.point 0 0, Geom.point 1 1] ["A", "B", "C"] (.error "x")
      = (.error (.shapeMismatch 3 2), [])
    ∧ pipelineMain [Geom.point 0 0, Geom.point 1 1] ["A", "B", "C"] (.error "x")
      = pipelineMain [Geom.point 0 0, Geom.point 1 1] ["A", "B", "C"] (.ok ⟨[], []⟩) :=
  pipeline_shape_mismatch_no_fetch _ _ _ _ (by decide)

/-- Counterexample to claim C3 as stated: an attribute table with two rows
against one point, but whose only column is neither bio-named nor numeric,
fails with the no-variables error, which carries no counts, instead of the
row-count-mismatch error. -/
theorem assemble_row_mismatch_counterexample :
    assemble [((0 : Rat), (0 : Rat))] ["A"] ⟨[("name", false)], [[1], [2]]⟩
      = .error .noVariables
    ∧ (AttrTable.mk [("name", false)] [[1], [2]]).rows.length
      ≠ ([((0 : Rat), (0 : Rat))]).length
    ∧ AsmError.noVariables ≠ .rowMismatch 1 2 := ⟨rfl, by decide, by decide⟩

/-- Claim C3 as amended: when at least one variable column is retained, a
row-count mismatch fails with the error carrying both counts; and in every
case a merged table is produced only when the two counts are equal. -/
theorem assemble_row_mismatch_amended (pts : List (Rat × Rat))
    (labels : List String) (t : AttrTable) :
    (retainedCols t ≠ [] → t.rows.length ≠ pts.length →
      assemble pts labels t = .error (.rowMismatch pts.length t.rows.length)) ∧
    (∀ T, assemble pts labels t = .ok T → t.rows.length = pts.length) := by
  constructor
  · intro hK hne
    have hne2 : ¬(pts.length = t.rows.length) := fun hx => hne hx.symm
    simp [assemble, hK, hne2]
  · intro T hT
    by_cases hK : retainedCols t = []
    · simp [assemble, hK] at hT
    · by_cases he : pts.length = t.rows.length
      · exact he.symm
      · simp [assemble, hK, he] at hT

/-- Witness for the amended C3: one point against two rows of a table with a
retained BIO1 column gives the row-mismatch error carrying 1 and 2. -/
theorem assemble_row_mismatch_amended_witness :
    assemble [((0 : Rat), (0 : Rat))] ["A"] ⟨[("BIO1", true)], [[1], [2]]⟩
      = .error (.rowMismatch 1 2) :=
  (assemble_row_mismatch_amended _ _ _).1 (by decide) (by decide)

/-- Claim C4: the retained columns are exactly the attribute keys containing
"bio" case-insensitively; when none matches they are exactly the
numeric-dtype keys; and the assembler raises the no-variables error exactly
when no column is retained, which can only happen when no numeric column
exists at all. -/
theorem retained_columns_selection (t : AttrTable) :
    (∀ c, c ∈ retainedCols t ↔
      c ∈ t.cols ∧ (hasBio c.1 = true ∨ (bio_columns t = [] ∧ c.2 = true))) ∧
    (∀ pts labels, assemble pts labels t = .error .noVariables
      ↔ retainedCols t = []) ∧
    (retainedCols t = [] → t.cols.filter (fun c => c.2) = []) := by
  refine ⟨?_, ?_, ?_⟩
  · intro c
    unfold retainedCols keepPred
    by_cases hb : bio_columns t = []
    · rw [if_pos hb, List.mem_filter]
      constructor
      · rintro ⟨hc, h2⟩
        exact ⟨hc, Or.inr ⟨hb, h2⟩⟩
      · rintro ⟨hc, h2 | ⟨_, h2⟩⟩
        · exfalso
          have hcb : c ∈ bio_columns t := List.mem_filter.mpr ⟨hc, h2⟩
          rw [hb] at hcb
          exact absurd hcb (List.not_mem_nil c)
        · exact ⟨hc, h2⟩
    · rw [if_neg hb, List.mem_filter]
      constructor
      · rintro ⟨hc, h2⟩
        exact ⟨hc, Or.inl h2⟩
      · rintro ⟨hc, h2 | ⟨hb2, _⟩⟩
        · exact ⟨hc, h2⟩
        · exact absurd hb2 hb
  · intro pts labels
    constructor
    · intro h
      by_contra hK
      by_cases he : pts.length = t.rows.length
      · rw [assemble_ok_eq pts labels t he hK] at h
        exact Except.noConfusion h
      · simp [assemble, hK, he] at h
    · intro h
      simp [assemble, h]
  · intro h
    unfold retainedCols keepPred at h
    by_cases hb : bio_columns t = []
    · rwa [if_pos hb] at h
    · rw [if_neg hb] at h
      unfold bio_columns at hb
      exact absurd h hb

/-- Witness for C4: a table whose only column is the non-numeric,
non-bio-named "name" retains nothing, and indeed has no numeric column. -/
theorem retained_columns_selection_witness :
    (AttrTable.mk [("name", false)] []).cols.filter (fun c => c.2) = [] :=
  (retained_columns_selection ⟨[("name", false)], []⟩).2.2 (by decide)

/-- Counterexample to claim C5 as stated: a validated upload that parses to
a single polygon is returned as a geometry set by the Geometry Loader
instead of failing. -/
theorem loader_accepts_polygon_counterexample :
    (uploaded_file_to_gdf (some ⟨"pts.geojson", 100⟩) "tmpfile" true
      (.error "nk") (.ok [Geom.polygon])).1 = .ok [Geom.polygon]
    ∧ Geom.polygon.isPoint = false := ⟨rfl, rfl⟩

/-- Claim C5 as amended: the Geometry Loader performs no geometry-type
check: a validated upload that parses to a nonempty list of at most
MAX_AREAS geometries is returned as-is even when it contains non-point
geometries; only coordinate extraction downstream fails on them. -/
theorem loader_no_geometry_type_check (u : Option Upload) (tmp : String)
    (pk : Except String (List Geom)) (gs : List Geom)
    (hv : (validate_file_upload u).1 = true) (hne : gs ≠ [])
    (hle : gs.length ≤ MAX_AREAS)
    (_hnp : ∃ g ∈ gs, g.isPoint = false) :
    (uploaded_file_to_gdf u tmp true pk (.ok gs)).1 = .ok gs := by
  obtain ⟨v, rfl, hext⟩ := validate_true_ext hv
  have hkml : (fileExtension v.name == ".kml") = false := by
    rw [hext]; rfl
  have hvf : ¬((validate_file_upload (some v)).1 = false) := by simp [hv]
  simp only [uploaded_file_to_gdf]
  rw [if_neg hvf]
  simp [hkml, hne, List.isEmpty_iff, Nat.not_lt.mpr hle]

/-- Witness for the amended C5: a valid upload parsing to one polygon is
returned unchanged. -/
theorem loader_no_geometry_type_check_witness :
    (uploaded_file_to_gdf (some ⟨"area.geojson", 2048⟩) "tmpfile" true
      (.error "nk") (.ok [Geom.polygon])).1 = .ok [Geom.polygon] :=
  loader_no_geometry_type_check _ _ _ _ (by decide) (by decide) (by decide)
    ⟨Geom.polygon, by decide, rfl⟩

/-- Claim C6: applying the transpose twice to an assembled result changes
nothing, so assembling and then transposing twice equals assembling alone. -/
theorem assemble_transpose_roundtrip (pts : List (Rat × Rat))
    (labels : List String) (t : AttrTable)
    (hL : labels.length = pts.length) (hR : t.rows.length = pts.length)
    (hW : ∀ r ∈ t.rows, r.length = t.cols.length) :
    (assemble pts labels t).map (fun T => transpose (transpose T))
      = assemble pts labels t := by
  by_cases hK : retainedCols t = []
  · simp only [assemble, if_pos hK]
    rfl
  · rw [assemble_ok_eq pts labels t hR.symm hK]
    show Except.ok (transpose (transpose (transpose (mergedDF pts labels t)))) = _
    rw [transpose_transpose _ (transpose_wf _ (mergedDF_wf pts labels t hL hR hW).1)]

/-- Witness for C6 at the three-point scenario of the spec. -/
theorem assemble_transpose_roundtrip_witness :
    (assemble [(-27.80, -50.10), (-27.85, -50.20), (-27.90, -50.30)]
        ["P1", "P2", "P3"]
        ⟨[("BIO1", true), ("BIO12", true)], [[180, 1500], [180, 1500], [180, 1500]]⟩).map
        (fun T => transpose (transpose T))
      = assemble [(-27.80, -50.10), (-27.85, -50.20), (-27.90, -50.30)]
        ["P1", "P2", "P3"]
        ⟨[("BIO1", true), ("BIO12", true)], [[180, 1500], [180, 1500], [180, 1500]]⟩ :=
  assemble_transpose_roundtrip _ _ _ (by decide) (by decide) (by decide)

/-- Claim C7: parsing the label string "A, B ,C," splits on commas, strips
the pieces and drops the trailing empty piece, yielding exactly A, B, C. -/
theorem parseAreas_trims_and_drops_empties :
    parseAreas "A, B ,C," = ["A", "B", "C"] := rfl

/-- Claim C8: the export content is a pure function of the table alone: it
does not depend on the clock reading used for the download file name, and it
is exactly the UTF-8 bytes of the semicolon-separated, comma-decimal CSV
text of the table, headers included. -/
theorem convert_df_pure_deterministic (d : DF Rat) (t1 t2 : String) :
    (exportStep d t1).2 = (exportStep d t2).2
    ∧ (exportStep d t1).2 = (toCsv d).toUTF8.toList := ⟨rfl, rfl⟩

/-- Claim C9: the Geometry Loader creates no temporary file when validation
rejects the upload, and every temporary file it creates is removed before it
returns, on the success path and on every failure path. -/
theorem loader_temp_file_hygiene (u : Option Upload) (tmp : String) (safe : Bool)
    (pk pg : Except String (List Geom)) :
    ((validate_file_upload u).1 = false →
      (uploaded_file_to_gdf u tmp safe pk pg).2 = []) ∧
    (∀ f, FOp.create f ∈ (uploaded_file_to_gdf u tmp safe pk pg).2 →
      FOp.remove f ∈ (uploaded_file_to_gdf u tmp safe pk pg).2) := by
  constructor
  · intro h
    simp [uploaded_file_to_gdf, h]
  · intro f hf
    by_cases hvf : (validate_file_upload u).1 = false
    · simp [uploaded_file_to_gdf, hvf] at hf
    · match u with
      | none => simp [validate_file_upload] at hvf
      | some v =>
        simp only [uploaded_file_to_gdf] at hf ⊢
        rw [if_neg hvf] at hf ⊢
        by_cases hsafe : safe = false
        · rw [if_pos hsafe] at hf
          simp at hf
        · rw [if_neg hsafe] at hf ⊢
          cases hkml : (fileExtension v.name == ".kml") <;>
            simp [hkml] at hf ⊢ <;> simp [hf]

/-- Witness for C9: an oversize upload creates no file at all, and a valid
upload's created temporary file is removed. -/
theorem loader_temp_file_hygiene_witness :
    (uploaded_file_to_gdf (some ⟨"big.geojson", 20971520⟩) "tmpid" true
      (.error "nk") (.ok [])).2 = []
    ∧ FOp.remove ("tmpid" ++ ".geojson") ∈
        (uploaded_file_to_gdf (some ⟨"pts.geojson", 100⟩) "tmpid" true
          (.error "nk") (.ok [Geom.point 0 0])).2 :=
  ⟨(loader_temp_file_hygiene _ _ _ _ _).1 (by decide),
    (loader_temp_file_hygiene _ _ _ _ _).2 ("tmpid" ++ ".geojson") (by decide)⟩

/-- Claim C10: any upload accepted by the validator is named with extension
.geojson (the allow-list holds only that entry), so the KML branch of the
loader is never taken: no KML driver use appears in the trace, and the
loader's outcome does not depend on the KML parse at all. -/
theorem validated_upload_is_geojson (u : Option Upload) (tmp : String)
    (safe : Bool) (pk pk2 pg : Except String (List Geom))
    (h : (validate_file_upload u).1 = true) :
    (∃ v, u = some v ∧ fileExtension v.name = ".geojson") ∧
    FOp.useKmlDriver ∉ (uploaded_file_to_gdf u tmp safe pk pg).2 ∧
    uploaded_file_to_gdf u tmp safe pk pg
      = uploaded_file_to_gdf u tmp safe pk2 pg := by
  obtain ⟨v, rfl, hext⟩ := validate_true_ext h
  have hkml : (fileExtension v.name == ".kml") = false := by
    rw [hext]; rfl
  have hvf : ¬((validate_file_upload (some v)).1 = false) := by simp [h]
  refine ⟨⟨v, rfl, hext⟩, ?_, ?_⟩
  · simp only [uploaded_file_to_gdf]
    rw [if_neg hvf]
    split
    · simp
    · simp [hkml]
  · simp only [uploaded_file_to_gdf]
    rw [if_neg hvf]
    split
    · rfl
    · simp [hkml]

/-- Witness for C10 at a concrete valid upload. -/
theorem validated_upload_is_geojson_witness :
    (∃ v, (some (Upload.mk "pts.geojson" 100)) = some v
      ∧ fileExtension v.name = ".geojson") ∧
    FOp.useKmlDriver ∉ (uploaded_file_to_gdf (some ⟨"pts.geojson", 100⟩) "tmpid"
      true (.error "a") (.ok [Geom.point 0 0])).2 ∧
    uploaded_file_to_gdf (some ⟨"pts.geojson", 100⟩) "tmpid" true
        (.error "a") (.ok [Geom.point 0 0])
      = uploaded_file_to_gdf (some ⟨"pts.geojson", 100⟩) "tmpid" true
        (.error "b") (.ok [Geom.point 0 0]) :=
  validated_upload_is_geojson _ _ _ _ _ _ (by decide)

end EasyBioclim
